import Mathlib

/-!
Verification of the HTTP service in `api/index.py`.

The service has four substantive endpoints:
  * `GET /katec-to-wgs84`   — converts a KATEC pair to WGS84 via pyproj,
  * `GET /wgs84-to-katec`   — the inverse conversion via pyproj,
  * `GET /api/nearby-gas-stations` — proxies the Opinet `aroundAll.do` API,
  * `GET /api/detailById`   — proxies the Opinet `detailById.do` API.

Modelling choices, from the source:
  * Handlers never compute with the float coordinates: they are decoded from
    the query string, passed to pyproj or into upstream query parameters, and
    serialised back out.  Coordinates are therefore carried opaquely as their
    decimal renderings (`String`); all numeric computation happens inside
    pyproj, which enters the model as an explicit `transform` parameter.
  * The upstream HTTP exchange performed with `httpx` enters the model as an
    explicit `upstream : UpstreamRequest → GetResult` parameter.  `client.get`
    either raises `httpx.RequestError` (constructor `GetResult.requestError`)
    or yields a response with a status code and decoded body text
    (`GetResult.success`).  `response.raise_for_status()` raises
    `httpx.HTTPStatusError` exactly when the status is not 2xx.
  * `raise HTTPException(status_code, detail)` makes FastAPI reply with that
    status and JSON body `{"detail": detail}`; a returned dict is serialised
    as JSON with status 200.  Responses are modelled as a status code plus a
    flat JSON object (every body this service produces is one).
  * Each handler's result is paired with the trace of calls it makes (the
    upstream requests issued, resp. the transform invocations), so that
    "exactly one request, no retries" is a statement about the model.
-/

/-- A primitive JSON field value as produced by the handlers.  Numbers are
carried as their decimal renderings, since the handlers pass them through
without computing with them. -/
inductive JVal where
  | str : String → JVal
  | num : String → JVal
  deriving DecidableEq, Repr

/-- An HTTP reply from this service: status code plus a flat JSON object body
(every body produced by `api/index.py` is a flat object). -/
structure Response where
  status : Nat
  body : List (String × JVal)
  deriving DecidableEq, Repr

/-- An upstream HTTP response as seen through `httpx`: status code and the
decoded body text (`response.text`). -/
structure HttpResponse where
  status : Nat
  text : String
  deriving DecidableEq, Repr

/-- Outcome of `await client.get(url, params=params)`: either a response, or a
transport-level failure (`httpx.RequestError`, rendered as the message the
handler interpolates as `{exc}`). -/
inductive GetResult where
  | success : HttpResponse → GetResult
  | requestError : String → GetResult
  deriving DecidableEq, Repr

/-- An outbound GET request: fixed URL plus query parameters, with values in
their rendered (string) form. -/
structure UpstreamRequest where
  url : String
  params : List (String × String)
  deriving DecidableEq, Repr

/-- `httpx` counts a status as success exactly when it is 2xx;
`response.raise_for_status()` raises `HTTPStatusError` otherwise. -/
def isSuccessStatus (s : Nat) : Bool :=
  200 ≤ s && s < 300

/-- The static Opinet API key embedded in both proxy handlers. -/
def OPINET_API_KEY : String := "F250930867"

/-- The fixed upstream URL of `get_nearby_gas_stations`. -/
def AROUND_ALL_URL : String := "https://www.opinet.co.kr/api/aroundAll.do"

/-- The fixed upstream URL of `detail_by_id`. -/
def DETAIL_BY_ID_URL : String := "https://www.opinet.co.kr/api/detailById.do"

/-- Default of the `radius` parameter in `get_nearby_gas_stations`. -/
def radiusDefault : Int := 5000

/-- Default of the `prodcd` parameter in `get_nearby_gas_stations`. -/
def prodcdDefault : String := "B027"

/-- The `params` dict built by `get_nearby_gas_stations`, with every value in
its rendered form. -/
def nearbyParams (x y : String) (radius : Int) (prodcd : String) :
    List (String × String) :=
  [("code", OPINET_API_KEY), ("x", x), ("y", y), ("radius", toString radius),
   ("prodcd", prodcd), ("out", "xml")]

/-- The `params` dict built by `detail_by_id`. -/
def detailParams (uid : String) : List (String × String) :=
  [("code", OPINET_API_KEY), ("id", uid), ("out", "xml")]

/-- Handler of `GET /api/nearby-gas-stations` (`get_nearby_gas_stations` in
`api/index.py`), as a function of the upstream behaviour.  Returns the trace
of upstream requests issued together with the HTTP reply.  The handler issues
one GET; a transport failure becomes HTTP 400 with the Korean failure message
as detail, a non-2xx upstream status is forwarded with the upstream body
appended to the Korean error message, and a 2xx body is wrapped verbatim in a
single-field `xml_data` object. -/
def get_nearby_gas_stations (x y : String) (radius : Int) (prodcd : String)
    (upstream : UpstreamRequest → GetResult) :
    List UpstreamRequest × Response :=
  let req : UpstreamRequest := ⟨AROUND_ALL_URL, nearbyParams x y radius prodcd⟩
  ([req],
    match upstream req with
    | GetResult.requestError msg =>
        ⟨400, [("detail", JVal.str ("Opinet API 요청 실패: " ++ msg))]⟩
    | GetResult.success r =>
        if isSuccessStatus r.status then
          ⟨200, [("xml_data", JVal.str r.text)]⟩
        else
          ⟨r.status, [("detail", JVal.str ("Opinet API 에러: " ++ r.text))]⟩)

/-- Handler of `GET /api/detailById` (`detail_by_id` in `api/index.py`), with
the same response shaping as `get_nearby_gas_stations` but its own URL and
parameter dict. -/
def detail_by_id (uid : String)
    (upstream : UpstreamRequest → GetResult) :
    List UpstreamRequest × Response :=
  let req : UpstreamRequest := ⟨DETAIL_BY_ID_URL, detailParams uid⟩
  ([req],
    match upstream req with
    | GetResult.requestError msg =>
        ⟨400, [("detail", JVal.str ("Opinet API 요청 실패: " ++ msg))]⟩
    | GetResult.success r =>
        if isSuccessStatus r.status then
          ⟨200, [("xml_data", JVal.str r.text)]⟩
        else
          ⟨r.status, [("detail", JVal.str ("Opinet API 에러: " ++ r.text))]⟩)

/-- Outcome of a pyproj `Transformer.transform` call as observed by the
handlers: either an output pair, or an exception whose `str(e)` is `msg`. -/
inductive TransformResult where
  | ok : String → String → TransformResult
  | error : String → TransformResult
  deriving DecidableEq, Repr

/-- Handler of `GET /katec-to-wgs84` (`convert_katec_to_wgs84` in
`api/index.py`), as a function of the pyproj transformer behaviour.  Returns
the trace of transform invocations together with the HTTP reply: on success,
200 with `{"lon": lon, "lat": lat}`; on any exception, HTTP 400 with `str(e)`
as detail. -/
def convert_katec_to_wgs84 (x y : String)
    (transform : String → String → TransformResult) :
    List (String × String) × Response :=
  ([(x, y)],
    match transform x y with
    | TransformResult.ok lon lat =>
        ⟨200, [("lon", JVal.num lon), ("lat", JVal.num lat)]⟩
    | TransformResult.error msg =>
        ⟨400, [("detail", JVal.str msg)]⟩)

/-- Handler of `GET /wgs84-to-katec` (`convert_wgs84_to_katec` in
`api/index.py`): on success, 200 with `{"x": x, "y": y}`; on any exception,
HTTP 400 with `str(e)` as detail. -/
def convert_wgs84_to_katec (lon lat : String)
    (transform : String → String → TransformResult) :
    List (String × String) × Response :=
  ([(lon, lat)],
    match transform lon lat with
    | TransformResult.ok x y =>
        ⟨200, [("x", JVal.num x), ("y", JVal.num y)]⟩
    | TransformResult.error msg =>
        ⟨400, [("detail", JVal.str msg)]⟩)

/-- First value of a query parameter in the raw query string. -/
def lookupParam (q : List (String × String)) (k : String) : Option String :=
  (q.find? (fun p => p.1 == k)).map Prod.snd

/-- The reply FastAPI produces when a required query parameter is missing:
a 422 validation error, emitted before the handler body runs.  The detail
text is abstracted; no claim constrains it. -/
def validationError422 : Response :=
  ⟨422, [("detail", JVal.str "field required")]⟩

/-- Routing layer of `GET /katec-to-wgs84`.  The handler signature
`(x: float, y: float)` declares `x` and `y` required, so FastAPI replies 422
without running the handler when either is missing; the transform trace is
then empty. -/
def route_katec_to_wgs84 (q : List (String × String))
    (transform : String → String → TransformResult) :
    List (String × String) × Response :=
  match lookupParam q "x", lookupParam q "y" with
  | some x, some y => convert_katec_to_wgs84 x y transform
  | _, _ => ([], validationError422)

/-- Routing layer of `GET /wgs84-to-katec`: `lon` and `lat` are required. -/
def route_wgs84_to_katec (q : List (String × String))
    (transform : String → String → TransformResult) :
    List (String × String) × Response :=
  match lookupParam q "lon", lookupParam q "lat" with
  | some lon, some lat => convert_wgs84_to_katec lon lat transform
  | _, _ => ([], validationError422)

/-- Routing layer of `GET /api/nearby-gas-stations`: `x` and `y` are
required, `radius` defaults to 5000 and `prodcd` to "B027". -/
def route_nearby_gas_stations (q : List (String × String))
    (upstream : UpstreamRequest → GetResult) :
    List UpstreamRequest × Response :=
  match lookupParam q "x", lookupParam q "y" with
  | some x, some y =>
      get_nearby_gas_stations x y
        (((lookupParam q "radius").bind String.toInt?).getD radiusDefault)
        ((lookupParam q "prodcd").getD prodcdDefault) upstream
  | _, _ => ([], validationError422)

/-- Routing layer of `GET /api/detailById`: `uid` is required. -/
def route_detail_by_id (q : List (String × String))
    (upstream : UpstreamRequest → GetResult) :
    List UpstreamRequest × Response :=
  match lookupParam q "uid" with
  | some uid => detail_by_id uid upstream
  | none => ([], validationError422)

/-! Claim theorems. -/

/-- Claim C3: for every upstream response with a 2xx status, each proxy
endpoint (`get_nearby_gas_stations` and `detail_by_id`) replies HTTP 200 with
body exactly the single-field JSON object `{"xml_data": <raw upstream body
text>}`, the body passed through unmodified. -/
theorem c3_success_passthrough (s : Nat) (body x y uid prodcd : String)
    (radius : Int) (h : isSuccessStatus s = true) :
    (get_nearby_gas_stations x y radius prodcd
        (fun _ => GetResult.success ⟨s, body⟩)).2 =
      ⟨200, [("xml_data", JVal.str body)]⟩ ∧
    (detail_by_id uid (fun _ => GetResult.success ⟨s, body⟩)).2 =
      ⟨200, [("xml_data", JVal.str body)]⟩ := by
  constructor <;> simp [get_nearby_gas_stations, detail_by_id, h]

/-- Witness for C3: the mocked upstream of the spec (HTTP 200, body
`<RESULT>ok</RESULT>`) yields `{"xml_data": "<RESULT>ok</RESULT>"}` with
status 200 on both endpoints. -/
theorem c3_success_passthrough_witness :
    isSuccessStatus 200 = true ∧
    (get_nearby_gas_stations "351245.5" "523456.2" 5000 "B027"
        (fun _ => GetResult.success ⟨200, "<RESULT>ok</RESULT>"⟩)).2 =
      ⟨200, [("xml_data", JVal.str "<RESULT>ok</RESULT>")]⟩ ∧
    (detail_by_id "A0000001" (fun _ => GetResult.success
        ⟨200, "<RESULT>ok</RESULT>"⟩)).2 =
      ⟨200, [("xml_data", JVal.str "<RESULT>ok</RESULT>")]⟩ :=
  ⟨by decide,
   (c3_success_passthrough 200 "<RESULT>ok</RESULT>" "351245.5" "523456.2"
      "A0000001" "B027" 5000 (by decide)).1,
   (c3_success_passthrough 200 "<RESULT>ok</RESULT>" "351245.5" "523456.2"
      "A0000001" "B027" 5000 (by decide)).2⟩

/-- Counterexample to claim C4 as stated: on an upstream 500 with body
`<ERROR/>`, the proxy's detail field is not the upstream body verbatim — the
handler produces `"Opinet API 에러: <ERROR/>"`, not `"<ERROR/>"`. -/
theorem c4_counterexample :
    (get_nearby_gas_stations "1" "2" 5000 "B027"
        (fun _ => GetResult.success ⟨500, "<ERROR/>"⟩)).2 ≠
      ⟨500, [("detail", JVal.str "<ERROR/>")]⟩ := by
  decide

/-- Claim C4, amended: for every upstream response with a non-2xx status, each
proxy endpoint replies with the upstream status code and with detail the
fixed message `"Opinet API 에러: "` followed by the upstream body verbatim
(the body is contained verbatim but carries that fixed Korean message as a
lead-in, so the detail is not the bare body). -/
theorem c4_status_forwarded (s : Nat) (body x y uid prodcd : String)
    (radius : Int) (h : isSuccessStatus s = false) :
    (get_nearby_gas_stations x y radius prodcd
        (fun _ => GetResult.success ⟨s, body⟩)).2 =
      ⟨s, [("detail", JVal.str ("Opinet API 에러: " ++ body))]⟩ ∧
    (detail_by_id uid (fun _ => GetResult.success ⟨s, body⟩)).2 =
      ⟨s, [("detail", JVal.str ("Opinet API 에러: " ++ body))]⟩ := by
  constructor <;> simp [get_nearby_gas_stations, detail_by_id, h]

/-- Witness for the amended C4: an upstream 500 with body `<ERROR/>` yields
status 500 with detail `"Opinet API 에러: <ERROR/>"` on both endpoints. -/
theorem c4_status_forwarded_witness :
    isSuccessStatus 500 = false ∧
    (get_nearby_gas_stations "1" "2" 5000 "B027"
        (fun _ => GetResult.success ⟨500, "<ERROR/>"⟩)).2 =
      ⟨500, [("detail", JVal.str ("Opinet API 에러: " ++ "<ERROR/>"))]⟩ ∧
    (detail_by_id "A0000001" (fun _ => GetResult.success ⟨500, "<ERROR/>"⟩)).2 =
      ⟨500, [("detail", JVal.str ("Opinet API 에러: " ++ "<ERROR/>"))]⟩ :=
  ⟨by decide,
   (c4_status_forwarded 500 "<ERROR/>" "1" "2" "A0000001" "B027" 5000
      (by decide)).1,
   (c4_status_forwarded 500 "<ERROR/>" "1" "2" "A0000001" "B027" 5000
      (by decide)).2⟩

/-- Claim C5: for every transport-level failure of the outbound call, each
proxy endpoint replies HTTP 400 with the descriptive detail
`"Opinet API 요청 실패: "` followed by the exception message, and the request
trace holds exactly the one request — the call is not retried. -/
theorem c5_transport_failure (msg x y uid prodcd : String) (radius : Int) :
    get_nearby_gas_stations x y radius prodcd
        (fun _ => GetResult.requestError msg) =
      ([⟨AROUND_ALL_URL, nearbyParams x y radius prodcd⟩],
       ⟨400, [("detail", JVal.str ("Opinet API 요청 실패: " ++ msg))]⟩) ∧
    detail_by_id uid (fun _ => GetResult.requestError msg) =
      ([⟨DETAIL_BY_ID_URL, detailParams uid⟩],
       ⟨400, [("detail", JVal.str ("Opinet API 요청 실패: " ++ msg))]⟩) := by
  constructor <;> rfl

/-- Claim C6: whenever the projection library fails on the given input, each
conversion endpoint replies HTTP 400 with the underlying error message as
detail; every reply of either endpoint has status 200 or 400 (no other
outcome is possible); and the transform trace holds exactly the one
invocation — the operation is not retried. -/
theorem c6_conversion_error (x y lon lat msgk msgw : String)
    (tk tw : String → String → TransformResult)
    (hk : tk x y = TransformResult.error msgk)
    (hw : tw lon lat = TransformResult.error msgw) :
    convert_katec_to_wgs84 x y tk =
      ([(x, y)], ⟨400, [("detail", JVal.str msgk)]⟩) ∧
    convert_wgs84_to_katec lon lat tw =
      ([(lon, lat)], ⟨400, [("detail", JVal.str msgw)]⟩) ∧
    (∀ (a b : String) (t : String → String → TransformResult),
      (convert_katec_to_wgs84 a b t).2.status = 200 ∨
      (convert_katec_to_wgs84 a b t).2.status = 400) ∧
    (∀ (a b : String) (t : String → String → TransformResult),
      (convert_wgs84_to_katec a b t).2.status = 200 ∨
      (convert_wgs84_to_katec a b t).2.status = 400) := by
  refine ⟨by simp [convert_katec_to_wgs84, hk],
          by simp [convert_wgs84_to_katec, hw], ?_, ?_⟩ <;>
    intro a b t <;> rcases h : t a b with _ | _ <;>
      simp [convert_katec_to_wgs84, convert_wgs84_to_katec, h]

/-- Witness for C6: a transformer that always fails with message `"boom"`
makes both endpoints reply 400 with detail `"boom"` after one invocation. -/
theorem c6_conversion_error_witness :
    (fun _ _ => TransformResult.error "boom" : String → String →
        TransformResult) "400000" "600000" = TransformResult.error "boom" ∧
    convert_katec_to_wgs84 "400000" "600000"
        (fun _ _ => TransformResult.error "boom") =
      ([("400000", "600000")], ⟨400, [("detail", JVal.str "boom")]⟩) :=
  ⟨rfl,
   (c6_conversion_error "400000" "600000" "128" "38" "boom" "boom"
      (fun _ _ => TransformResult.error "boom")
      (fun _ _ => TransformResult.error "boom") rfl rfl).1⟩

/-- Claim C7: each invocation of `get_nearby_gas_stations` issues exactly one
GET to the fixed `aroundAll.do` URL with query parameters exactly
`code, x, y, radius, prodcd, out=xml` (with the static API key), and each
invocation of `detail_by_id` issues exactly one GET to the fixed
`detailById.do` URL with parameters exactly `code, id, out=xml`; the routing
defaults are `radius = 5000` and `prodcd = "B027"`, used when the query
string omits them. -/
theorem c7_request_shape (x y uid prodcd : String) (radius : Int)
    (up : UpstreamRequest → GetResult) :
    (get_nearby_gas_stations x y radius prodcd up).1 =
      [⟨AROUND_ALL_URL,
        [("code", OPINET_API_KEY), ("x", x), ("y", y),
         ("radius", toString radius), ("prodcd", prodcd), ("out", "xml")]⟩] ∧
    (detail_by_id uid up).1 =
      [⟨DETAIL_BY_ID_URL,
        [("code", OPINET_API_KEY), ("id", uid), ("out", "xml")]⟩] ∧
    radiusDefault = 5000 ∧ prodcdDefault = "B027" ∧
    (route_nearby_gas_stations [("x", x), ("y", y)] up).1 =
      [⟨AROUND_ALL_URL,
        [("code", OPINET_API_KEY), ("x", x), ("y", y), ("radius", "5000"),
         ("prodcd", "B027"), ("out", "xml")]⟩] := by
  refine ⟨rfl, rfl, rfl, rfl, ?_⟩
  rcases hxy : x == y with _ | _ <;>
    simp [route_nearby_gas_stations, lookupParam, List.find?,
      get_nearby_gas_stations, nearbyParams, radiusDefault, prodcdDefault,
      hxy] <;> rfl

/-- Claim C9: a request missing a required query parameter (`x` or `y` for
`/katec-to-wgs84` and `/api/nearby-gas-stations`, `lon` or `lat` for
`/wgs84-to-katec`, `uid` for `/api/detailById`) gets the 422 validation
reply, and the trace of conversions resp. upstream requests is empty — the
client error is produced before any conversion or outbound call is
attempted. -/
theorem c9_missing_params (q : List (String × String))
    (tk tw : String → String → TransformResult)
    (up : UpstreamRequest → GetResult) :
    ((lookupParam q "x" = none ∨ lookupParam q "y" = none) →
      route_katec_to_wgs84 q tk = ([], validationError422) ∧
      route_nearby_gas_stations q up = ([], validationError422)) ∧
    ((lookupParam q "lon" = none ∨ lookupParam q "lat" = none) →
      route_wgs84_to_katec q tw = ([], validationError422)) ∧
    (lookupParam q "uid" = none →
      route_detail_by_id q up = ([], validationError422)) := by
  refine ⟨fun h => ?_, fun h => ?_, fun h => ?_⟩
  · rcases hx : lookupParam q "x" with _ | vx <;>
      rcases hy : lookupParam q "y" with _ | vy <;>
        simp [hx, hy] at h <;>
          simp [route_katec_to_wgs84, route_nearby_gas_stations, hx, hy]
  · rcases hx : lookupParam q "lon" with _ | vx <;>
      rcases hy : lookupParam q "lat" with _ | vy <;>
        simp [hx, hy] at h <;>
          simp [route_wgs84_to_katec, hx, hy]
  · simp [route_detail_by_id, h]

/-- Witness for C9: the empty query string is missing every required
parameter, and all four routes reply with the validation error and an empty
trace. -/
theorem c9_missing_params_witness :
    (route_katec_to_wgs84 [] (fun _ _ => TransformResult.error "e") =
        ([], validationError422) ∧
      route_nearby_gas_stations []
          (fun _ => GetResult.requestError "down") =
        ([], validationError422)) ∧
    route_wgs84_to_katec [] (fun _ _ => TransformResult.error "e") =
      ([], validationError422) ∧
    route_detail_by_id [] (fun _ => GetResult.requestError "down") =
      ([], validationError422) :=
  ⟨(c9_missing_params [] (fun _ _ => TransformResult.error "e")
      (fun _ _ => TransformResult.error "e")
      (fun _ => GetResult.requestError "down")).1 (Or.inl rfl),
   (c9_missing_params [] (fun _ _ => TransformResult.error "e")
      (fun _ _ => TransformResult.error "e")
      (fun _ => GetResult.requestError "down")).2.1 (Or.inl rfl),
   (c9_missing_params [] (fun _ _ => TransformResult.error "e")
      (fun _ _ => TransformResult.error "e")
      (fun _ => GetResult.requestError "down")).2.2 rfl⟩

/-- Claim C10: the two proxy endpoints implement identical response shaping
and error mapping — for the same upstream outcome (same 2xx body, same
transport failure, or same non-2xx status and body), `get_nearby_gas_stations`
and `detail_by_id` produce the same HTTP reply. -/
theorem c10_identical_shaping (g : GetResult) (x y uid prodcd : String)
    (radius : Int) :
    (get_nearby_gas_stations x y radius prodcd (fun _ => g)).2 =
      (detail_by_id uid (fun _ => g)).2 := by
  rcases g with r | m
  · rcases h : isSuccessStatus r.status with _ | _ <;>
      simp [get_nearby_gas_stations, detail_by_id, h]
  · rfl
